import Mathlib

/-!
# Verification of the tapostreamer stream supervisor

Shallow embedding of the core logic of `tapostreamer.py` (class `RTSPViewer`):

* `update_streams` — derivation of the per-camera RTSP URL with duplicate
  suppression (source lines 168–181);
* `monitor_tick` — one iteration of the body of `monitor_stream`
  (source lines 631–734): drop-window pruning, the unstable check, the
  throttle / degrade / pause policy;
* `handle_stream_click` — fullscreen-focus toggling and the exclusive-audio
  volume assignment (source lines 853–910);
* `start_ptz_move` / `stop_ptz_move` / `ptz_move_loop` — the serialized PTZ
  command dispatcher (source lines 1007–1076).

Timestamps (Python floats from `time.time()`) are modelled as rationals.
External collaborator effects (VLC volume commands, ONVIF PTZ commands)
are recorded as data; a command that the collaborator may silently drop or
that raises a swallowed exception is modelled by an explicit failure flag.
-/

namespace Tapo

/-! ## Stream URL derivation (`update_streams`, source lines 168–181) -/

/-- The f-string of source line 173:
`rtsp://{username}:{password}@{ip}:554/stream{'2' if not hq else '1'}`. -/
def mk_stream_url (username password ip : String) (hq : Bool) : String :=
  "rtsp://" ++ username ++ ":" ++ password ++ "@" ++ ip ++ ":554/stream" ++
    (if hq then "1" else "2")

/-- The truthiness test of source line 172: `if ip and self.username and
self.password`. -/
def cfg_enabled (username password : String) (c : String × Bool) : Prop :=
  c.1 ≠ "" ∧ username ≠ "" ∧ password ≠ ""

instance (username password : String) (c : String × Bool) :
    Decidable (cfg_enabled username password c) := by
  unfold cfg_enabled; infer_instance

/-- Per-config derived URL: the value `stream` holds before the duplicate
check of source lines 174–177 (empty when the config is disabled). -/
def derive_stream (username password ip : String) (hq : Bool) : String :=
  if ip ≠ "" ∧ username ≠ "" ∧ password ≠ "" then
    mk_stream_url username password ip hq
  else ""

/-- The loop of `update_streams` (source lines 170–180); `seen` is the
`seen_urls` set, modelled as the list of URLs added so far. -/
def update_streams_go (username password : String) :
    List (String × Bool) → List String → List String
  | [], _ => []
  | c :: rest, seen =>
    if cfg_enabled username password c then
      let s := mk_stream_url username password c.1 c.2
      if s ∈ seen then "" :: update_streams_go username password rest seen
      else s :: update_streams_go username password rest (s :: seen)
    else
      "" :: update_streams_go username password rest seen

/-- `update_streams` (source lines 168–181): maps the `(ip, hq_enabled)`
configs to the list `self.streams`. -/
def update_streams (username password : String) (cams : List (String × Bool)) :
    List String :=
  update_streams_go username password cams []

/-! ## Drop window and the monitoring tick (`monitor_stream`, lines 631–734) -/

/-- Source line 677:
`self.drop_timestamps[index] = [t for t in self.drop_timestamps[index] if current_time - t < 5.0]`. -/
def prune (now : ℚ) (ts : List ℚ) : List ℚ :=
  ts.filter (fun t => now - t < 5)

/-- Which branch of the monitoring loop body a tick took. -/
inductive Decision
  /-- No unstable condition: fall through to the sleep at line 734. -/
  | nop
  /-- Terminal decoder state detected (lines 646–650 / 660–664): `break`. -/
  | failed
  /-- Lines 679–684: degrade throttled, `continue` with the player alive. -/
  | throttle
  /-- Lines 686–731 with `failure_count < max_failures`:
  `self.init_stream(index); return`. -/
  | degradeConnect
  /-- Lines 720–728: pause branch, then `continue`. -/
  | degradePause
deriving DecidableEq

/-- Continuation of the session after a tick. `degradePause` maps to
`terminated`: the branch executes `continue`, but the degrade cleanup
(lines 694–716) already set `media_players[index]` and
`vlc_processes[index]` to `None`, so the `while` condition at line 638 is
false and the loop exits without reconnecting. -/
inductive Phase
  | monitoring
  | connecting
  | terminated
deriving DecidableEq

def phase_of : Decision → Phase
  | .nop => .monitoring
  | .throttle => .monitoring
  | .degradeConnect => .connecting
  | .degradePause => .terminated
  | .failed => .terminated

/-- Per-session monitoring state: the instance field `drop_timestamps[index]`
and `hq_enabled[index]`, the locals `failure_count`, `backoff_delay` and
`last_stream_switch` of `monitor_stream`, the last value of
`hq_enabled[index]` written to the config store by `save_config` (none if
the monitor has not persisted anything), and the panel label text last set
by the monitor. -/
structure MonitorState where
  drop_timestamps : List ℚ
  hq_enabled : Bool
  persisted_hq : Option Bool
  failure_count : Nat
  backoff_delay : ℚ
  last_stream_switch : ℚ
  status : Option String
deriving DecidableEq

/-- Locals at entry of `monitor_stream` (lines 631–636), with the drop
window freshly reset by `init_stream` (lines 459–460 / 530–531). -/
def init_monitor (hq : Bool) : MonitorState :=
  { drop_timestamps := []
    hq_enabled := hq
    persisted_hq := none
    failure_count := 0
    backoff_delay := 15
    last_stream_switch := 0
    status := none }

/-- One iteration of the `while` body of `monitor_stream` (lines 639–734).
`dropped` abstracts the sampling of lines 651–655 / 665–672 (a drop was
recorded this tick: the check interval elapsed and the player reported
buffering / zero CPU); `dead` abstracts a terminal decoder state
(lines 646 / 660). -/
def monitor_tick (now : ℚ) (dropped dead : Bool) (s : MonitorState) :
    MonitorState × Decision :=
  if dead then
    ({ s with status := some "Stream Failed" }, .failed)
  else
    let ts1 := if dropped then s.drop_timestamps ++ [now] else s.drop_timestamps
    let ts2 := prune now ts1
    if 10 ≤ ts2.length ∧ s.hq_enabled = true then
      if now - s.last_stream_switch < 60 then
        ({ s with drop_timestamps := ts2
                  status := some "Waiting: Stream Unstable"
                  backoff_delay := min (s.backoff_delay * 2) 120 }, .throttle)
      else
        let fc := s.failure_count + 1
        if 3 ≤ fc then
          ({ drop_timestamps := []
             hq_enabled := false
             persisted_hq := some false
             failure_count := 0
             backoff_delay := min (s.backoff_delay * 2) 120
             last_stream_switch := now
             status := some "Paused: Stream Unstable" }, .degradePause)
        else
          ({ drop_timestamps := ts2
             hq_enabled := false
             persisted_hq := some false
             failure_count := fc
             backoff_delay := s.backoff_delay
             last_stream_switch := now
             status := some "Loading..." }, .degradeConnect)
    else
      ({ s with drop_timestamps := ts2 }, .nop)

/-- Input of one monitoring tick. -/
structure TickInput where
  now : ℚ
  dropped : Bool
  dead : Bool

/-- Fold a sequence of ticks over the monitoring state. -/
def monitor_run : List TickInput → MonitorState → MonitorState
  | [], s => s
  | i :: rest, s => monitor_run rest (monitor_tick i.now i.dropped i.dead s).1

/-- Trace of branch decisions of a sequence of ticks. -/
def monitor_decisions : List TickInput → MonitorState → List Decision
  | [], _ => []
  | i :: rest, s =>
    (monitor_tick i.now i.dropped i.dead s).2 ::
      monitor_decisions rest (monitor_tick i.now i.dropped i.dead s).1

/-- A decision that performs an actual degrade (writes `hq_enabled := False`,
persists it and tears the decoder down). -/
def isDegrade : Decision → Bool
  | .degradeConnect => true
  | .degradePause => true
  | _ => false

/-- External reconfiguration of one session via the config dialog
(`save_streams`, lines 325–347): the per-index `hq_enabled` is overwritten
with the checkbox value, the drop window is reset (line 340), the new value
is persisted by `save_config` (line 342), and `restart_streams` hands the
session to a fresh `monitor_stream` invocation with fresh locals. -/
def reconfigure_session (new_hq : Bool) (_s : MonitorState) : MonitorState :=
  { drop_timestamps := []
    hq_enabled := new_hq
    persisted_hq := some new_hq
    failure_count := 0
    backoff_delay := 15
    last_stream_switch := 0
    status := none }

/-! ## Fullscreen focus and audio exclusivity (`handle_stream_click`, 853–910)

The embedding records, per session, the last volume commanded to the decoder
collaborator.  It assumes that every session with a non-empty stream URL has
a live player handle (`self.media_players[i]` truthy — the situation after a
successful `init_stream`), and that a volume command reaches the player:
the python-vlc "kick" retry (lines 873–891) and the CLI unmute retry
(`_unmute_vlc_cli_audio`) are the mechanisms making the command stick, and
are modelled as the final value they establish. -/

structure ClickState where
  is_fullscreen : Bool
  fullscreen_index : Option (Fin 4)
  volumes : Fin 4 → Nat

/-- `handle_stream_click` (source lines 853–910): guard on an empty URL
(line 854), focus toggle (lines 857–862), then the volume loop over all
four sessions (lines 865–908). -/
def handle_stream_click (streams : Fin 4 → String) (audio_enabled : Fin 4 → Bool)
    (s : ClickState) (index : Fin 4) : ClickState :=
  if streams index = "" then s
  else
    let toggle_off := s.is_fullscreen = true ∧ s.fullscreen_index = some index
    let new_fs : Bool := if toggle_off then false else true
    let new_idx : Option (Fin 4) := if toggle_off then none else some index
    { is_fullscreen := new_fs
      fullscreen_index := new_idx
      volumes := fun i =>
        if streams i = "" ∨ audio_enabled i = false then s.volumes i
        else if new_idx = some i ∧ new_fs = true then 100 else 0 }

/-- Number of sessions with a non-empty URL, audio enabled, and full volume. -/
def audible_count (streams : Fin 4 → String) (audio_enabled : Fin 4 → Bool)
    (vols : Fin 4 → Nat) : Nat :=
  (Finset.univ.filter
    (fun i : Fin 4 => streams i ≠ "" ∧ audio_enabled i = true ∧ vols i = 100)).card

/-! ## PTZ command dispatch (lines 1007–1076)

`sent` records the commands dispatched to the ONVIF collaborator, in order.
`resolve_fails` models `get_onvif_camera` returning `None` or the ONVIF call
raising: `send_ptz_command` then does nothing (the `except` of line 1075
swallows the error).  `in_flight` counts spawned `ptz_move_loop` threads not
yet finished. -/

inductive PtzDir
  | left
  | right
  | up
  | down
deriving DecidableEq

/-- A command as it reaches the ONVIF collaborator. -/
inductive PtzCmd
  /-- `ContinuousMove` with speed 0.1 in the direction's axis (lines 1059–1074). -/
  | move (d : PtzDir)
  /-- `Stop` (lines 1047–1049). -/
  | stop
  /-- The pulse of lines 1050–1058: `ContinuousMove` with tiny y-velocity of
  the given sign, then `Stop`. -/
  | pulse (y_sign : Int)
deriving DecidableEq

structure PtzState where
  is_fullscreen : Bool
  fullscreen_index : Option (Fin 4)
  ptz_moving : Bool
  ptz_busy : Bool
  ptz_click_counts : Fin 4 → Nat
  in_flight : Nat
  sent : List PtzCmd

/-- Command names as passed to `send_ptz_command`. -/
inductive PtzCmdName
  | dir (d : PtzDir)
  | stop
  | pulse_stop
deriving DecidableEq

/-- `send_ptz_command` (lines 1040–1076).  When the camera cannot be
resolved or the ONVIF call raises, nothing happens.  `pulse_stop` reads
`self.ptz_click_counts[self.fullscreen_index]` at send time (line 1053); if
no index is focused, the lookup raises and is swallowed (line 1075). -/
def send_ptz_command (resolve_fails : Bool) (s : PtzState) (c : PtzCmdName) :
    PtzState :=
  if resolve_fails then s
  else
    match c with
    | .stop => { s with sent := s.sent ++ [PtzCmd.stop] }
    | .pulse_stop =>
      match s.fullscreen_index with
      | none => s
      | some k =>
        { s with sent := s.sent ++
            [PtzCmd.pulse (if s.ptz_click_counts k % 2 = 1 then 1 else -1),
             PtzCmd.stop] }
    | .dir d => { s with sent := s.sent ++ [PtzCmd.move d] }

/-- `start_ptz_move` (lines 1007–1017): guards, then set `busy`, bump the
click-parity counter for left/right, set `moving`, and spawn the move loop. -/
def start_ptz_move (ips streams : Fin 4 → String) (d : PtzDir) (s : PtzState) :
    PtzState :=
  if s.is_fullscreen = false then s
  else
    match s.fullscreen_index with
    | none => s
    | some k =>
      if streams k = "" then s
      else if ips k = "" then s
      else if s.ptz_busy = true then s
      else
        { s with
          ptz_busy := true
          ptz_click_counts := fun i =>
            if (d = PtzDir.left ∨ d = PtzDir.right) ∧ i = k then
              s.ptz_click_counts i + 1
            else s.ptz_click_counts i
          ptz_moving := true
          in_flight := s.in_flight + 1 }

/-- The spawned thread body `ptz_move_loop` (lines 1028–1038): under
`ptz_lock`, send the move, sleep 1 s, send `pulse_stop` for left/right or a
plain stop for up/down if the button is still held; the `finally` clears
`ptz_busy` on every path. -/
def ptz_move_loop (resolve_fails : Bool) (d : PtzDir) (s : PtzState) : PtzState :=
  let s1 := send_ptz_command resolve_fails s (.dir d)
  let s2 :=
    if d = PtzDir.left ∨ d = PtzDir.right then
      send_ptz_command resolve_fails s1 .pulse_stop
    else if s1.ptz_moving = true then
      send_ptz_command resolve_fails s1 .stop
    else s1
  { s2 with ptz_busy := false, in_flight := s2.in_flight - 1 }

/-- `stop_ptz_move` (lines 1019–1026): guard, clear `moving`, send a plain
stop if an IP is configured, clear `busy`. -/
def stop_ptz_move (ips : Fin 4 → String) (resolve_fails : Bool) (s : PtzState) :
    PtzState :=
  if s.is_fullscreen = false then s
  else
    match s.fullscreen_index with
    | none => s
    | some k =>
      let s1 := { s with ptz_moving := false }
      let s2 := if ips k ≠ "" then send_ptz_command resolve_fails s1 .stop else s1
      { s2 with ptz_busy := false }

/-! ## Lemmas about `update_streams` -/

/-- The built URL is never the empty string (it starts with `rtsp://`). -/
lemma mk_stream_url_ne_empty (u p ip : String) (hq : Bool) :
    mk_stream_url u p ip hq ≠ "" := by
  intro h
  have h2 := congrArg String.length h
  simp only [mk_stream_url, String.length_append] at h2
  have h7 : "rtsp://".length = 7 := rfl
  have h0 : "".length = 0 := rfl
  rw [h7, h0] at h2
  omega

/-- URL of a config pair. -/
def cfg_url (u p : String) (c : String × Bool) : String :=
  mk_stream_url u p c.1 c.2

lemma derive_stream_eq (u p : String) (c : String × Bool) :
    derive_stream u p c.1 c.2 =
      if cfg_enabled u p c then cfg_url u p c else "" := by
  by_cases h : cfg_enabled u p c
  · have h2 : c.1 ≠ "" ∧ u ≠ "" ∧ p ≠ "" := h
    unfold derive_stream
    rw [if_pos h2, if_pos h]
    rfl
  · have h2 : ¬(c.1 ≠ "" ∧ u ≠ "" ∧ p ≠ "") := fun hx => h hx
    unfold derive_stream
    rw [if_neg h2, if_neg h]

lemma derive_stream_ne_empty_iff (u p : String) (c : String × Bool) :
    derive_stream u p c.1 c.2 ≠ "" ↔ cfg_enabled u p c := by
  rw [derive_stream_eq]
  by_cases h : cfg_enabled u p c
  · simp [h, cfg_url, mk_stream_url_ne_empty]
  · simp [h]

lemma forall_lt_succ_iff (n : Nat) (P : Nat → Prop) :
    (∀ i, i < n + 1 → P i) ↔ P 0 ∧ (∀ i, i < n → P (i + 1)) := by
  constructor
  · intro h
    exact ⟨h 0 (Nat.succ_pos n), fun i hi => h (i + 1) (Nat.succ_lt_succ hi)⟩
  · rintro ⟨h0, h⟩ i hi
    cases i with
    | zero => exact h0
    | succ m => exact h m (Nat.lt_of_succ_lt_succ hi)

/-- Full characterization of the dedup loop: entry `j` of the output is the
built URL exactly when config `j` is enabled, its URL is not among the
already-seen ones, and no earlier enabled config builds the same URL;
otherwise it is the empty string. -/
lemma update_streams_go_getD (u p : String) :
    ∀ (cams : List (String × Bool)) (seen : List String) (j : Nat),
    (update_streams_go u p cams seen).getD j "" =
      if cfg_enabled u p (cams.getD j ("", true))
          ∧ cfg_url u p (cams.getD j ("", true)) ∉ seen
          ∧ (∀ i, i < j → ¬(cfg_enabled u p (cams.getD i ("", true))
              ∧ cfg_url u p (cams.getD i ("", true))
                = cfg_url u p (cams.getD j ("", true))))
      then cfg_url u p (cams.getD j ("", true))
      else "" := by
  intro cams
  induction cams with
  | nil =>
    intro seen j
    simp [update_streams_go, cfg_enabled]
  | cons c rest ih =>
    intro seen j
    cases j with
    | zero =>
      by_cases hc : cfg_enabled u p c
      · by_cases hs : cfg_url u p c ∈ seen
        · simp only [update_streams_go, if_pos hc, cfg_url] at *
          simp [hs, cfg_url]
        · simp only [update_streams_go, if_pos hc, cfg_url] at *
          simp [hs, cfg_url, hc]
      · simp [update_streams_go, hc]
    | succ n =>
      have hgoal :
          (update_streams_go u p (c :: rest) seen).getD (n + 1) "" =
            (update_streams_go u p rest
              (if cfg_enabled u p c then
                (if cfg_url u p c ∈ seen then seen else cfg_url u p c :: seen)
               else seen)).getD n "" := by
        by_cases hc : cfg_enabled u p c
        · by_cases hs : mk_stream_url u p c.1 c.2 ∈ seen
          · simp [update_streams_go, hc, hs, cfg_url]
          · simp [update_streams_go, hc, hs, cfg_url]
        · simp [update_streams_go, hc]
      rw [hgoal, ih]
      have hJ : (c :: rest).getD (n + 1) ("", true) = rest.getD n ("", true) := rfl
      rw [hJ]
      apply if_congr _ rfl rfl
      rw [forall_lt_succ_iff]
      have h0 : (c :: rest).getD 0 ("", true) = c := rfl
      have hstep : ∀ i, (c :: rest).getD (i + 1) ("", true) = rest.getD i ("", true) :=
        fun i => rfl
      simp only [h0, hstep]
      by_cases hc : cfg_enabled u p c
      · by_cases hs : cfg_url u p c ∈ seen
        · rw [if_pos hc, if_pos hs]
          constructor
          · rintro ⟨ha, hmem, hrest⟩
            refine ⟨ha, hmem, ?_, hrest⟩
            rintro ⟨hcc, heq⟩
            exact hmem (heq ▸ hs)
          · rintro ⟨ha, hmem, _, hrest⟩
            exact ⟨ha, hmem, hrest⟩
        · rw [if_pos hc, if_neg hs]
          constructor
          · rintro ⟨ha, hmem, hrest⟩
            rw [List.mem_cons] at hmem
            push_neg at hmem
            exact ⟨ha, hmem.2, fun hcj => hmem.1 hcj.2.symm, hrest⟩
          · rintro ⟨ha, hmem, hne, hrest⟩
            refine ⟨ha, ?_, hrest⟩
            rw [List.mem_cons]
            push_neg
            exact ⟨fun heq => hne ⟨hc, heq.symm⟩, hmem⟩
      · rw [if_neg hc]
        constructor
        · rintro ⟨ha, hmem, hrest⟩
          exact ⟨ha, hmem, fun hcj => hc hcj.1, hrest⟩
        · rintro ⟨ha, hmem, _, hrest⟩
          exact ⟨ha, hmem, hrest⟩

/-! ## Claims C6 and C7 -/

/-- Concrete degrade input for the C6 scenario: session 0 is HQ, ten drops
survive the 5-second window at tick time 1000, and no stream switch has
happened yet. -/
def degrade_example_state : MonitorState :=
  { drop_timestamps := List.replicate 10 (999 : ℚ)
    hq_enabled := true
    persisted_hq := none
    failure_count := 0
    backoff_delay := 15
    last_stream_switch := 0
    status := none }

/-- C6: with non-empty ip, username and password the derived URL is
`rtsp://user:pass@ip:554/stream1` for HQ and `.../stream2` otherwise, and
it is empty when any of the three fields is empty; concretely, the config
(ip 10.0.0.5, user a, pass b, hq true) at index 0 yields
`rtsp://a:b@10.0.0.5:554/stream1`, a degrade tick turns `hqEnabled` off and
persists `false`, and rebuilding the streams then yields
`rtsp://a:b@10.0.0.5:554/stream2` at index 0. -/
theorem C6_url_derivation (u p ip : String) (hq : Bool) :
    (ip ≠ "" → u ≠ "" → p ≠ "" →
       derive_stream u p ip hq =
         "rtsp://" ++ u ++ ":" ++ p ++ "@" ++ ip ++ ":554/stream" ++
           (if hq then "1" else "2"))
    ∧ ((ip = "" ∨ u = "" ∨ p = "") → derive_stream u p ip hq = "")
    ∧ update_streams "a" "b" [("10.0.0.5", true), ("", true), ("", true), ("", true)]
        = ["rtsp://a:b@10.0.0.5:554/stream1", "", "", ""]
    ∧ (monitor_tick 1000 true false degrade_example_state).1.hq_enabled = false
    ∧ (monitor_tick 1000 true false degrade_example_state).1.persisted_hq = some false
    ∧ update_streams "a" "b" [("10.0.0.5", false), ("", true), ("", true), ("", true)]
        = ["rtsp://a:b@10.0.0.5:554/stream2", "", "", ""] := by
  refine ⟨?_, ?_, by decide, ?_, ?_, by decide⟩
  · intro h1 h2 h3
    unfold derive_stream
    rw [if_pos ⟨h1, h2, h3⟩]
    rfl
  · intro h
    unfold derive_stream
    rw [if_neg]
    rcases h with h | h | h <;> simp [h]
  · norm_num [monitor_tick, degrade_example_state, prune, List.filter]
  · norm_num [monitor_tick, degrade_example_state, prune, List.filter]

/-- C6 witness: the derivation rule applied at the concrete scenario
config, and at a config with an empty ip. -/
theorem C6_url_derivation_witness :
    derive_stream "a" "b" "10.0.0.5" true = "rtsp://a:b@10.0.0.5:554/stream1"
    ∧ derive_stream "a" "b" "" true = "" := by
  constructor
  · have h := (C6_url_derivation "a" "b" "10.0.0.5" true).1
      (by decide) (by decide) (by decide)
    rw [h]
    decide
  · exact (C6_url_derivation "a" "b" "" true).2.1 (Or.inl rfl)

/-- C7: among indices whose configs derive an identical non-empty stream
URL, every occurrence after the first gets the empty string from
`update_streams`; an index whose derived URL is non-empty and collides with
no earlier index keeps its derived URL. -/
theorem C7_dedup_first_wins (u p : String) (cams : List (String × Bool)) :
    (∀ i j : Nat, i < j →
        derive_stream u p (cams.getD i ("", true)).1 (cams.getD i ("", true)).2
          = derive_stream u p (cams.getD j ("", true)).1 (cams.getD j ("", true)).2 →
        derive_stream u p (cams.getD j ("", true)).1 (cams.getD j ("", true)).2 ≠ "" →
        (update_streams u p cams).getD j "" = "")
    ∧ (∀ j : Nat,
        derive_stream u p (cams.getD j ("", true)).1 (cams.getD j ("", true)).2 ≠ "" →
        (∀ i, i < j →
          derive_stream u p (cams.getD i ("", true)).1 (cams.getD i ("", true)).2
            ≠ derive_stream u p (cams.getD j ("", true)).1 (cams.getD j ("", true)).2) →
        (update_streams u p cams).getD j ""
          = derive_stream u p (cams.getD j ("", true)).1 (cams.getD j ("", true)).2) := by
  constructor
  · intro i j hij heq hne
    have hj : cfg_enabled u p (cams.getD j ("", true)) :=
      (derive_stream_ne_empty_iff u p _).mp hne
    have hi : cfg_enabled u p (cams.getD i ("", true)) :=
      (derive_stream_ne_empty_iff u p _).mp (fun h0 => hne (heq ▸ h0))
    have hui : cfg_url u p (cams.getD i ("", true))
        = cfg_url u p (cams.getD j ("", true)) := by
      have e1 := derive_stream_eq u p (cams.getD i ("", true))
      have e2 := derive_stream_eq u p (cams.getD j ("", true))
      rw [if_pos hi] at e1
      rw [if_pos hj] at e2
      rw [← e1, ← e2]
      exact heq
    unfold update_streams
    rw [update_streams_go_getD, if_neg]
    rintro ⟨-, -, hall⟩
    exact hall i hij ⟨hi, hui⟩
  · intro j hne hall
    have hj : cfg_enabled u p (cams.getD j ("", true)) :=
      (derive_stream_ne_empty_iff u p _).mp hne
    have e2 := derive_stream_eq u p (cams.getD j ("", true))
    rw [if_pos hj] at e2
    have hcond : cfg_enabled u p (cams.getD j ("", true))
        ∧ cfg_url u p (cams.getD j ("", true)) ∉ ([] : List String)
        ∧ (∀ i, i < j → ¬(cfg_enabled u p (cams.getD i ("", true))
            ∧ cfg_url u p (cams.getD i ("", true))
              = cfg_url u p (cams.getD j ("", true)))) := by
      refine ⟨hj, by simp, ?_⟩
      rintro i hij ⟨hi, hui⟩
      apply hall i hij
      have e1 := derive_stream_eq u p (cams.getD i ("", true))
      rw [if_pos hi] at e1
      rw [e1, e2]
      exact hui
    unfold update_streams
    rw [update_streams_go_getD, if_pos hcond]
    exact e2.symm

/-- C7 witness: two configs with the same ip and quality, so both derive the
same URL; the second becomes empty, the first keeps the URL. -/
theorem C7_dedup_first_wins_witness :
    (update_streams "a" "b" [("1.1.1.1", true), ("1.1.1.1", true)]).getD 1 "" = ""
    ∧ (update_streams "a" "b" [("1.1.1.1", true), ("1.1.1.1", true)]).getD 0 ""
        = derive_stream "a" "b" "1.1.1.1" true := by
  constructor
  · exact (C7_dedup_first_wins "a" "b" [("1.1.1.1", true), ("1.1.1.1", true)]).1
      0 1 (by decide) (by decide) (by decide)
  · exact (C7_dedup_first_wins "a" "b" [("1.1.1.1", true), ("1.1.1.1", true)]).2
      0 (by decide) (by omega)

/-! ## Lemmas about the monitoring tick -/

lemma mem_prune (now t : ℚ) (ts : List ℚ) :
    t ∈ prune now ts ↔ t ∈ ts ∧ now - t < 5 := by
  simp [prune, List.mem_filter]

lemma monitor_tick_hq_mono (now : ℚ) (dropped dead : Bool) (s : MonitorState) :
    (monitor_tick now dropped dead s).1.hq_enabled = true → s.hq_enabled = true := by
  unfold monitor_tick
  split_ifs <;> simp_all <;> split_ifs <;> simp_all

lemma monitor_tick_degrade_hq (now : ℚ) (dropped dead : Bool) (s : MonitorState) :
    isDegrade (monitor_tick now dropped dead s).2 = true →
    (monitor_tick now dropped dead s).1.hq_enabled = false := by
  unfold monitor_tick
  split_ifs <;> simp_all [isDegrade] <;> split_ifs <;> simp_all [isDegrade]

lemma monitor_tick_no_degrade_of_sd (now : ℚ) (dropped dead : Bool)
    (s : MonitorState) (h : s.hq_enabled = false) :
    isDegrade (monitor_tick now dropped dead s).2 = false := by
  unfold monitor_tick
  split_ifs <;> simp_all [isDegrade]

lemma monitor_tick_sd_stays (now : ℚ) (dropped dead : Bool)
    (s : MonitorState) (h : s.hq_enabled = false) :
    (monitor_tick now dropped dead s).1.hq_enabled = false := by
  unfold monitor_tick
  split_ifs <;> simp_all

lemma monitor_decisions_no_degrade (l : List TickInput) (s : MonitorState)
    (h : s.hq_enabled = false) :
    (monitor_decisions l s).countP isDegrade = 0 := by
  induction l generalizing s with
  | nil => rfl
  | cons i rest ih =>
    rw [monitor_decisions, List.countP_cons]
    rw [monitor_tick_no_degrade_of_sd i.now i.dropped i.dead s h]
    rw [ih _ (monitor_tick_sd_stays i.now i.dropped i.dead s h)]
    simp

/-! ## Claims C2 and C3 -/

/-- C2: pruning keeps exactly the in-list timestamps strictly younger than
5 seconds (an entry aged 5 s or more is removed); with the session in HQ,
a live tick leaves the plain monitoring path (and can therefore throttle or
degrade) iff at least 10 timestamps survive the prune; and when all
recorded timestamps are at most the tick time, any two survivors are less
than 5 seconds apart. -/
theorem C2_drop_window (now : ℚ) (ts : List ℚ) :
    (∀ t : ℚ, t ∈ prune now ts ↔ t ∈ ts ∧ now - t < 5)
    ∧ (∀ (dropped : Bool) (s : MonitorState), s.hq_enabled = true →
        ((monitor_tick now dropped false s).2 ≠ Decision.nop
          ↔ 10 ≤ (prune now (if dropped then s.drop_timestamps ++ [now]
                              else s.drop_timestamps)).length))
    ∧ ((∀ t ∈ ts, t ≤ now) →
        ∀ t1 ∈ prune now ts, ∀ t2 ∈ prune now ts, t1 - t2 < 5) := by
  refine ⟨fun t => mem_prune now t ts, ?_, ?_⟩
  · intro dropped s hq
    unfold monitor_tick
    split_ifs <;> simp_all <;> split_ifs <;> simp_all
  · intro hle t1 h1 t2 h2
    rw [mem_prune] at h1 h2
    have ht1 := hle t1 h1.1
    have ht2 := h2.2
    linarith

/-- C2 witness: the prune membership rule at `now = 5`, the unstable test on
a window of ten fresh drops, and the under-5-second span at a concrete
window. -/
theorem C2_drop_window_witness :
    ((0:ℚ) ∈ prune 5 [0] ↔ (0:ℚ) ∈ [0] ∧ (5:ℚ) - 0 < 5)
    ∧ ((monitor_tick 1 false false
          { drop_timestamps := List.replicate 10 (0:ℚ), hq_enabled := true,
            persisted_hq := none, failure_count := 0, backoff_delay := 15,
            last_stream_switch := 0, status := none }).2 ≠ Decision.nop)
    ∧ (1:ℚ) - 2 < 5 := by
  refine ⟨(C2_drop_window 5 [0]).1 0, ?_, ?_⟩
  · refine ((C2_drop_window 1 []).2.1 false
      { drop_timestamps := List.replicate 10 (0:ℚ), hq_enabled := true,
        persisted_hq := none, failure_count := 0, backoff_delay := 15,
        last_stream_switch := 0, status := none } rfl).mpr ?_
    norm_num [prune, List.filter]
  · refine (C2_drop_window 5 [1, 2]).2.2 ?_ 1 ?_ 2 ?_
    · intro t ht
      fin_cases ht <;> norm_num
    · rw [mem_prune]
      exact ⟨by simp, by norm_num⟩
    · rw [mem_prune]
      exact ⟨by simp, by norm_num⟩

/-- C3: a monitoring tick can only keep `hqEnabled` or turn it off, never
turn it on (also across any sequence of ticks); when a tick does turn it
off, the tick is a degrade and the new `false` value is persisted through
the config store; only an external reconfiguration writes a fresh value. -/
theorem C3_hq_monotonic :
    (∀ (now : ℚ) (dropped dead : Bool) (s : MonitorState),
        (monitor_tick now dropped dead s).1.hq_enabled = true → s.hq_enabled = true)
    ∧ (∀ (now : ℚ) (dropped dead : Bool) (s : MonitorState),
        s.hq_enabled = true → (monitor_tick now dropped dead s).1.hq_enabled = false →
          (monitor_tick now dropped dead s).1.persisted_hq = some false
          ∧ isDegrade (monitor_tick now dropped dead s).2 = true)
    ∧ (∀ (l : List TickInput) (s : MonitorState),
        (monitor_run l s).hq_enabled = true → s.hq_enabled = true)
    ∧ (∀ (new_hq : Bool) (s : MonitorState),
        (reconfigure_session new_hq s).hq_enabled = new_hq
        ∧ (reconfigure_session new_hq s).persisted_hq = some new_hq) := by
  refine ⟨monitor_tick_hq_mono, ?_, ?_, fun new_hq s => ⟨rfl, rfl⟩⟩
  · intro now dropped dead s hq hoff
    unfold monitor_tick at hoff ⊢
    split_ifs at hoff ⊢ <;> simp_all [isDegrade] <;> split_ifs at hoff ⊢ <;>
      simp_all [isDegrade]
  · intro l
    induction l with
    | nil => intro s h; exact h
    | cons i rest ih =>
      intro s h
      exact monitor_tick_hq_mono i.now i.dropped i.dead s (ih _ h)

/-- C3 witness: the monotonicity direction at a quiet tick on a fresh HQ
session, the persistence conjunct at the concrete degrade tick, and the
reconfiguration conjunct at a re-enable. -/
theorem C3_hq_monotonic_witness :
    (init_monitor true).hq_enabled = true
    ∧ ((monitor_tick 1000 true false degrade_example_state).1.persisted_hq = some false
        ∧ isDegrade (monitor_tick 1000 true false degrade_example_state).2 = true)
    ∧ ((reconfigure_session true (init_monitor false)).hq_enabled = true
        ∧ (reconfigure_session true (init_monitor false)).persisted_hq = some true) := by
  refine ⟨?_, ?_, C3_hq_monotonic.2.2.2 true (init_monitor false)⟩
  · exact C3_hq_monotonic.2.2.1 [⟨0, false, false⟩] (init_monitor true)
      (by norm_num [monitor_run, monitor_tick, init_monitor, prune, List.filter])
  · exact C3_hq_monotonic.2.1 1000 true false degrade_example_state rfl
      (by norm_num [monitor_tick, degrade_example_state, prune, List.filter])

/-! ## Claims C4 and C5 -/

lemma monitor_decisions_degrade_le_one (l : List TickInput) (s : MonitorState) :
    (monitor_decisions l s).countP isDegrade ≤ 1 := by
  induction l generalizing s with
  | nil => simp [monitor_decisions]
  | cons i rest ih =>
    rw [monitor_decisions, List.countP_cons]
    by_cases hd : isDegrade (monitor_tick i.now i.dropped i.dead s).2 = true
    · have hoff := monitor_tick_degrade_hq i.now i.dropped i.dead s hd
      rw [monitor_decisions_no_degrade rest _ hoff]
      simp [hd]
    · rw [Bool.not_eq_true] at hd
      rw [hd]
      simpa using ih _

/-- C4 counterexample: from a fresh HQ monitor, ten drop ticks at time 56
produce a first unstable detection that is throttled (`last_stream_switch`
still holds its initial value 0, and 56 − 0 < 60); a drop tick at time 60 is
a second unstable detection 4 seconds later, and it degrades
(`Decision.degradeConnect`) instead of being converted to a throttled wait. -/
theorem C4_counterexample_second_detection_degrades :
    ((60:ℚ) - 56 < 60)
    ∧ monitor_decisions
        (List.replicate 10 ⟨56, true, false⟩ ++ [⟨60, true, false⟩])
        (init_monitor true)
      = [.nop, .nop, .nop, .nop, .nop, .nop, .nop, .nop, .nop, .throttle,
         .degradeConnect] := by
  constructor
  · norm_num
  · norm_num [monitor_decisions, monitor_tick, init_monitor, prune,
      List.filter, List.replicate]

/-- C4 (amended): across any sequence of monitoring ticks at most one
actual degrade-and-restart occurs (a degrade turns HQ off and a detection
requires HQ); and a detection occurring when the tick time is less than
60 seconds past the session's recorded last stream switch is converted to
a throttled wait: it reports "Waiting: Stream Unstable", sleeps the current
backoff and doubles it (capped at 120 s, initial value 15 s), and changes
neither `hqEnabled`, the failure count, nor the persisted config. -/
theorem C4_throttle_and_single_degrade :
    (∀ (l : List TickInput) (s : MonitorState),
        (monitor_decisions l s).countP isDegrade ≤ 1)
    ∧ (∀ (now : ℚ) (dropped : Bool) (s : MonitorState),
        s.hq_enabled = true →
        10 ≤ (prune now (if dropped then s.drop_timestamps ++ [now]
                          else s.drop_timestamps)).length →
        now - s.last_stream_switch < 60 →
          (monitor_tick now dropped false s).2 = Decision.throttle
          ∧ (monitor_tick now dropped false s).1.status
              = some "Waiting: Stream Unstable"
          ∧ (monitor_tick now dropped false s).1.hq_enabled = true
          ∧ (monitor_tick now dropped false s).1.backoff_delay
              = min (s.backoff_delay * 2) 120
          ∧ (monitor_tick now dropped false s).1.failure_count = s.failure_count
          ∧ (monitor_tick now dropped false s).1.persisted_hq = s.persisted_hq)
    ∧ (init_monitor true).backoff_delay = 15 := by
  refine ⟨monitor_decisions_degrade_le_one, ?_, rfl⟩
  intro now dropped s hq hlen h60
  refine ⟨?_, ?_, ?_, ?_, ?_, ?_⟩ <;> simp [monitor_tick, hq, hlen, h60]

/-- C4 witness: the throttle conjunct at a concrete detection 1 second into
the session (ten drops at time 0, tick at time 1). -/
theorem C4_throttle_witness :
    (monitor_tick 1 false false
        { drop_timestamps := List.replicate 10 (0:ℚ), hq_enabled := true,
          persisted_hq := none, failure_count := 0, backoff_delay := 15,
          last_stream_switch := 0, status := none }).2 = Decision.throttle
    ∧ (monitor_tick 1 false false
        { drop_timestamps := List.replicate 10 (0:ℚ), hq_enabled := true,
          persisted_hq := none, failure_count := 0, backoff_delay := 15,
          last_stream_switch := 0, status := none }).1.status
        = some "Waiting: Stream Unstable"
    ∧ (monitor_tick 1 false false
        { drop_timestamps := List.replicate 10 (0:ℚ), hq_enabled := true,
          persisted_hq := none, failure_count := 0, backoff_delay := 15,
          last_stream_switch := 0, status := none }).1.hq_enabled = true
    ∧ (monitor_tick 1 false false
        { drop_timestamps := List.replicate 10 (0:ℚ), hq_enabled := true,
          persisted_hq := none, failure_count := 0, backoff_delay := 15,
          last_stream_switch := 0, status := none }).1.backoff_delay
        = min ((15:ℚ) * 2) 120
    ∧ (monitor_tick 1 false false
        { drop_timestamps := List.replicate 10 (0:ℚ), hq_enabled := true,
          persisted_hq := none, failure_count := 0, backoff_delay := 15,
          last_stream_switch := 0, status := none }).1.failure_count = 0
    ∧ (monitor_tick 1 false false
        { drop_timestamps := List.replicate 10 (0:ℚ), hq_enabled := true,
          persisted_hq := none, failure_count := 0, backoff_delay := 15,
          last_stream_switch := 0, status := none }).1.persisted_hq = none := by
  exact C4_throttle_and_single_degrade.2.1 1 false
    { drop_timestamps := List.replicate 10 (0:ℚ), hq_enabled := true,
      persisted_hq := none, failure_count := 0, backoff_delay := 15,
      last_stream_switch := 0, status := none }
    rfl (by norm_num [prune, List.filter]) (by norm_num)

/-- State of `monitor_stream` at a tick where a third consecutive degrade
fires: HQ, ten in-window drops, last switch more than 60 s ago, and
`failure_count = 2` about to become `max_failures = 3`. -/
def pause_example_state : MonitorState :=
  { drop_timestamps := List.replicate 10 (99 : ℚ)
    hq_enabled := true
    persisted_hq := none
    failure_count := 2
    backoff_delay := 15
    last_stream_switch := 0
    status := none }

/-- C5: at the third consecutive degrade the pause branch reports
"Paused: Stream Unstable", doubles the backoff (15 → 30, capped at 120),
resets the failure count and the drop window — but the session then
terminates instead of looping back to Connecting: the branch executes
`continue` after the degrade cleanup has already cleared the decoder
handles, so the `while` condition is false and no reconnect ever happens
(whereas below 3 failures the degrade path does go to Connecting). -/
theorem C5_pause_never_reconnects :
    (monitor_tick 100 false false pause_example_state).2 = Decision.degradePause
    ∧ (monitor_tick 100 false false pause_example_state).1.status
        = some "Paused: Stream Unstable"
    ∧ (monitor_tick 100 false false pause_example_state).1.failure_count = 0
    ∧ (monitor_tick 100 false false pause_example_state).1.drop_timestamps = []
    ∧ (monitor_tick 100 false false pause_example_state).1.backoff_delay = 30
    ∧ phase_of (monitor_tick 100 false false pause_example_state).2
        = Phase.terminated
    ∧ phase_of (monitor_tick 100 false false pause_example_state).2
        ≠ Phase.connecting
    ∧ (monitor_tick 100 false false
        { pause_example_state with failure_count := 0 }).2
        = Decision.degradeConnect
    ∧ phase_of (monitor_tick 100 false false
        { pause_example_state with failure_count := 0 }).2 = Phase.connecting := by
  refine ⟨?_, ?_, ?_, ?_, ?_, ?_, ?_, ?_, ?_⟩ <;>
    norm_num [monitor_tick, pause_example_state, prune, phase_of, List.filter]
  decide

/-! ## Claims C1 and C9 -/

lemma handle_stream_click_empty (streams : Fin 4 → String)
    (audio_enabled : Fin 4 → Bool) (s : ClickState) (k : Fin 4)
    (hk : streams k = "") :
    handle_stream_click streams audio_enabled s k = s := by
  unfold handle_stream_click
  rw [if_pos hk]

lemma handle_stream_click_on_focus (streams : Fin 4 → String)
    (audio_enabled : Fin 4 → Bool) (s : ClickState) (k : Fin 4)
    (hk : streams k ≠ "")
    (h : ¬(s.is_fullscreen = true ∧ s.fullscreen_index = some k)) :
    (handle_stream_click streams audio_enabled s k).is_fullscreen = true
    ∧ (handle_stream_click streams audio_enabled s k).fullscreen_index = some k := by
  unfold handle_stream_click
  rw [if_neg hk]
  dsimp only
  rw [if_neg h, if_neg h]
  exact ⟨rfl, rfl⟩

lemma handle_stream_click_off_focus (streams : Fin 4 → String)
    (audio_enabled : Fin 4 → Bool) (s : ClickState) (k : Fin 4)
    (hk : streams k ≠ "")
    (h : s.is_fullscreen = true ∧ s.fullscreen_index = some k) :
    (handle_stream_click streams audio_enabled s k).is_fullscreen = false
    ∧ (handle_stream_click streams audio_enabled s k).fullscreen_index = none := by
  unfold handle_stream_click
  rw [if_neg hk]
  dsimp only
  rw [if_pos h, if_pos h]
  exact ⟨rfl, rfl⟩

lemma handle_stream_click_on_volumes (streams : Fin 4 → String)
    (audio_enabled : Fin 4 → Bool) (s : ClickState) (k : Fin 4)
    (hk : streams k ≠ "")
    (h : ¬(s.is_fullscreen = true ∧ s.fullscreen_index = some k)) (i : Fin 4) :
    (handle_stream_click streams audio_enabled s k).volumes i =
      if streams i = "" ∨ audio_enabled i = false then s.volumes i
      else if k = i then 100 else 0 := by
  unfold handle_stream_click
  rw [if_neg hk]
  dsimp only
  simp only [if_neg h]
  by_cases h1 : streams i = "" ∨ audio_enabled i = false
  · rw [if_pos h1, if_pos h1]
  · rw [if_neg h1, if_neg h1]
    by_cases h2 : k = i
    · rw [if_pos ⟨congrArg some h2, trivial⟩, if_pos h2]
    · rw [if_neg (fun hx => h2 (Option.some_injective _ hx.1)), if_neg h2]

lemma handle_stream_click_off_volumes (streams : Fin 4 → String)
    (audio_enabled : Fin 4 → Bool) (s : ClickState) (k : Fin 4)
    (hk : streams k ≠ "")
    (h : s.is_fullscreen = true ∧ s.fullscreen_index = some k) (i : Fin 4) :
    (handle_stream_click streams audio_enabled s k).volumes i =
      if streams i = "" ∨ audio_enabled i = false then s.volumes i
      else 0 := by
  unfold handle_stream_click
  rw [if_neg hk]
  dsimp only
  simp only [if_pos h]
  by_cases h1 : streams i = "" ∨ audio_enabled i = false
  · rw [if_pos h1, if_pos h1]
  · rw [if_neg h1, if_neg h1]
    rw [if_neg (fun hx => Option.noConfusion hx.1)]

/-- C1: after a stream click on an index with a non-empty URL, among the
sessions with a non-empty URL and audio enabled exactly the new fullscreen
focus is at volume 100 and every other one is at volume 0; when the click
exits fullscreen, or the clicked session's audio is disabled, no such
session is audible. -/
theorem C1_audio_exclusivity (streams : Fin 4 → String)
    (audio_enabled : Fin 4 → Bool) (s : ClickState) (k : Fin 4)
    (hk : streams k ≠ "") :
    (¬(s.is_fullscreen = true ∧ s.fullscreen_index = some k) →
        (audio_enabled k = true →
            audible_count streams audio_enabled
              (handle_stream_click streams audio_enabled s k).volumes = 1
            ∧ (handle_stream_click streams audio_enabled s k).volumes k = 100
            ∧ (∀ i, i ≠ k → streams i ≠ "" → audio_enabled i = true →
                (handle_stream_click streams audio_enabled s k).volumes i = 0))
        ∧ (audio_enabled k = false →
            audible_count streams audio_enabled
              (handle_stream_click streams audio_enabled s k).volumes = 0))
    ∧ ((s.is_fullscreen = true ∧ s.fullscreen_index = some k) →
        audible_count streams audio_enabled
          (handle_stream_click streams audio_enabled s k).volumes = 0) := by
  constructor
  · intro h
    have hvol := handle_stream_click_on_volumes streams audio_enabled s k hk h
    constructor
    · intro hak
      have hvk : (handle_stream_click streams audio_enabled s k).volumes k = 100 := by
        rw [hvol k, if_neg (by simp [hk, hak]), if_pos rfl]
      refine ⟨?_, hvk, ?_⟩
      · have hfilter : (Finset.univ.filter
            (fun i : Fin 4 => streams i ≠ "" ∧ audio_enabled i = true ∧
              (handle_stream_click streams audio_enabled s k).volumes i = 100)) = {k} := by
          ext i
          simp only [Finset.mem_filter, Finset.mem_univ, true_and,
            Finset.mem_singleton]
          constructor
          · rintro ⟨hsi, hai, hv⟩
            by_contra hne
            rw [hvol i, if_neg (by simp [hsi, hai]),
              if_neg (fun hx => hne hx.symm)] at hv
            exact absurd hv (by norm_num)
          · rintro rfl
            exact ⟨hk, hak, hvk⟩
        rw [audible_count, hfilter, Finset.card_singleton]
      · intro i hne hsi hai
        rw [hvol i, if_neg (by simp [hsi, hai]), if_neg (fun hx => hne hx.symm)]
    · intro hak
      have hfilter : (Finset.univ.filter
          (fun i : Fin 4 => streams i ≠ "" ∧ audio_enabled i = true ∧
            (handle_stream_click streams audio_enabled s k).volumes i = 100))
          = (∅ : Finset (Fin 4)) := by
        ext i
        simp only [Finset.mem_filter, Finset.mem_univ, true_and,
          Finset.not_mem_empty, iff_false, not_and]
        intro hsi hai
        by_cases h2 : k = i
        · subst h2
          rw [hai] at hak
          exact absurd hak (by simp)
        · rw [hvol i, if_neg (by simp [hsi, hai]), if_neg h2]
          norm_num
      rw [audible_count, hfilter, Finset.card_empty]
  · intro h
    have hvol := handle_stream_click_off_volumes streams audio_enabled s k hk h
    have hfilter : (Finset.univ.filter
        (fun i : Fin 4 => streams i ≠ "" ∧ audio_enabled i = true ∧
          (handle_stream_click streams audio_enabled s k).volumes i = 100))
        = (∅ : Finset (Fin 4)) := by
      ext i
      simp only [Finset.mem_filter, Finset.mem_univ, true_and,
        Finset.not_mem_empty, iff_false, not_and]
      intro hsi hai
      rw [hvol i, if_neg (by simp [hsi, hai])]
      norm_num
    rw [audible_count, hfilter, Finset.card_empty]

/-- C1 witness: clicking stream 0 in a grid state with all URLs present and
all audio enabled makes exactly session 0 audible at volume 100, and
session 1 silent. -/
theorem C1_audio_exclusivity_witness :
    audible_count (fun _ => "u") (fun _ => true)
      (handle_stream_click (fun _ => "u") (fun _ => true)
        ⟨false, none, fun _ => 0⟩ 0).volumes = 1
    ∧ (handle_stream_click (fun _ => "u") (fun _ => true)
        ⟨false, none, fun _ => 0⟩ 0).volumes 0 = 100
    ∧ (handle_stream_click (fun _ => "u") (fun _ => true)
        ⟨false, none, fun _ => 0⟩ 0).volumes 1 = 0 := by
  have h := ((C1_audio_exclusivity (fun _ => "u") (fun _ => true)
      ⟨false, none, fun _ => 0⟩ 0 (by decide)).1 (by simp)).1 rfl
  exact ⟨h.1, h.2.1, h.2.2 1 (by decide) (by decide) rfl⟩

/-- C9 counterexample: with every URL non-empty, two consecutive clicks on
index 0 from the state fullscreen-focused on index 1 end with the app not
fullscreen and no focus index — not back in the original focus state, so
two consecutive clicks on the same index do not in general round-trip the
focus state. -/
theorem C9_counterexample_no_roundtrip :
    (handle_stream_click (fun _ => "u") (fun _ => true)
      (handle_stream_click (fun _ => "u") (fun _ => true)
        ⟨true, some 1, fun _ => 0⟩ 0) 0).is_fullscreen = false
    ∧ ((⟨true, some 1, fun _ => 0⟩ : ClickState)).is_fullscreen = true
    ∧ (handle_stream_click (fun _ => "u") (fun _ => true)
        (handle_stream_click (fun _ => "u") (fun _ => true)
          ⟨true, some 1, fun _ => 0⟩ 0) 0).fullscreen_index = none
    ∧ ((⟨true, some 1, fun _ => 0⟩ : ClickState)).fullscreen_index = some 1 := by
  refine ⟨?_, rfl, ?_, rfl⟩ <;> decide

/-- C9 (amended): a click on an index with an empty URL changes nothing; a
click on index k with a non-empty URL exits fullscreen when k is already
the fullscreen focus and otherwise makes k the fullscreen focus; two
consecutive clicks on k round-trip the focus state whenever the starting
state is fullscreen-on-k or not-fullscreen-with-no-focus (the two shapes
the click handler itself produces) — clicking k from a state focused on a
different index leaves the app un-fullscreened instead. -/
theorem C9_focus_toggle (streams : Fin 4 → String) (audio_enabled : Fin 4 → Bool)
    (s : ClickState) (k : Fin 4) :
    (streams k = "" → handle_stream_click streams audio_enabled s k = s)
    ∧ (streams k ≠ "" →
        ((s.is_fullscreen = true ∧ s.fullscreen_index = some k →
            (handle_stream_click streams audio_enabled s k).is_fullscreen = false
            ∧ (handle_stream_click streams audio_enabled s k).fullscreen_index
                = none)
        ∧ (¬(s.is_fullscreen = true ∧ s.fullscreen_index = some k) →
            (handle_stream_click streams audio_enabled s k).is_fullscreen = true
            ∧ (handle_stream_click streams audio_enabled s k).fullscreen_index
                = some k)
        ∧ ((s.is_fullscreen = true ∧ s.fullscreen_index = some k) ∨
             (s.is_fullscreen = false ∧ s.fullscreen_index = none) →
            (handle_stream_click streams audio_enabled
                (handle_stream_click streams audio_enabled s k) k).is_fullscreen
              = s.is_fullscreen
            ∧ (handle_stream_click streams audio_enabled
                (handle_stream_click streams audio_enabled s k) k).fullscreen_index
              = s.fullscreen_index))) := by
  refine ⟨handle_stream_click_empty streams audio_enabled s k, ?_⟩
  intro hk
  refine ⟨handle_stream_click_off_focus streams audio_enabled s k hk,
    handle_stream_click_on_focus streams audio_enabled s k hk, ?_⟩
  rintro (h | h)
  · have h1 := handle_stream_click_off_focus streams audio_enabled s k hk h
    have h2 := handle_stream_click_on_focus streams audio_enabled
      (handle_stream_click streams audio_enabled s k) k hk
      (fun hx => by rw [h1.1] at hx; exact absurd hx.1 (by simp))
    rw [h2.1, h2.2, h.1, h.2]
    exact ⟨rfl, rfl⟩
  · have h1 := handle_stream_click_on_focus streams audio_enabled s k hk
      (fun hx => by rw [h.1] at hx; exact absurd hx.1 (by simp))
    have h2 := handle_stream_click_off_focus streams audio_enabled
      (handle_stream_click streams audio_enabled s k) k hk ⟨h1.1, h1.2⟩
    rw [h2.1, h2.2, h.1, h.2]
    exact ⟨rfl, rfl⟩

/-- C9 witness: the toggle behavior and round-trip at a concrete grid
state, plus the no-op on an index whose URL is empty. -/
theorem C9_focus_toggle_witness :
    handle_stream_click (fun _ => "") (fun _ => true)
      ⟨false, none, fun _ => 0⟩ 2 = ⟨false, none, fun _ => 0⟩
    ∧ ((handle_stream_click (fun _ => "u") (fun _ => true)
        (handle_stream_click (fun _ => "u") (fun _ => true)
          ⟨false, none, fun _ => 0⟩ 3) 3).is_fullscreen = false
      ∧ (handle_stream_click (fun _ => "u") (fun _ => true)
          (handle_stream_click (fun _ => "u") (fun _ => true)
            ⟨false, none, fun _ => 0⟩ 3) 3).fullscreen_index = none) := by
  constructor
  · exact (C9_focus_toggle (fun _ => "") (fun _ => true)
      ⟨false, none, fun _ => 0⟩ 2).1 rfl
  · exact ((C9_focus_toggle (fun _ => "u") (fun _ => true)
      ⟨false, none, fun _ => 0⟩ 3).2 (by decide)).2.2 (Or.inr ⟨rfl, rfl⟩)

/-! ## Claims C8 and C10 -/

/-- C8: `start_ptz_move` leaves the state untouched (no spawn, no counter
bump) when not fullscreen, when no index is focused, when the focused
session's URL or IP is empty, or when `ptz_busy` is already set; hence a
second call before the first move loop finishes is a no-op and exactly one
move is in flight; and the move loop clears `ptz_busy` on every exit path,
also when the PTZ collaborator fails. -/
theorem C8_ptz_serialization (ips streams : Fin 4 → String) (d d2 : PtzDir)
    (s : PtzState) :
    (s.is_fullscreen = false → start_ptz_move ips streams d s = s)
    ∧ (s.fullscreen_index = none → start_ptz_move ips streams d s = s)
    ∧ (∀ k, s.fullscreen_index = some k →
        (streams k = "" ∨ ips k = "" ∨ s.ptz_busy = true) →
        start_ptz_move ips streams d s = s)
    ∧ (∀ k, s.fullscreen_index = some k → s.is_fullscreen = true →
        streams k ≠ "" → ips k ≠ "" → s.ptz_busy = false →
        (start_ptz_move ips streams d2 (start_ptz_move ips streams d s)
            = start_ptz_move ips streams d s
        ∧ (start_ptz_move ips streams d s).in_flight = s.in_flight + 1))
    ∧ (∀ (resolve_fails : Bool),
        (ptz_move_loop resolve_fails d s).ptz_busy = false) := by
  refine ⟨?_, ?_, ?_, ?_, fun resolve_fails => rfl⟩
  · intro h
    unfold start_ptz_move
    rw [if_pos h]
  · intro h
    unfold start_ptz_move
    by_cases hf : s.is_fullscreen = false
    · rw [if_pos hf]
    · rw [if_neg hf, h]
  · intro k hidx hguard
    unfold start_ptz_move
    by_cases hf : s.is_fullscreen = false
    · rw [if_pos hf]
    · rw [if_neg hf, hidx]
      rcases hguard with h | h | h
      · simp [h]
      · simp [h]
      · simp [h]
  · intro k hidx hf hs hip hb
    have hR : start_ptz_move ips streams d s =
        { s with ptz_busy := true
                 ptz_click_counts := fun i =>
                   if (d = PtzDir.left ∨ d = PtzDir.right) ∧ i = k then
                     s.ptz_click_counts i + 1
                   else s.ptz_click_counts i
                 ptz_moving := true
                 in_flight := s.in_flight + 1 } := by
      unfold start_ptz_move
      rw [if_neg (by simp [hf]), hidx]
      simp [hs, hip, hb]
    refine ⟨?_, by rw [hR]⟩
    rw [hR]
    unfold start_ptz_move
    simp [hf, hidx, hs, hip]

/-- C8 witness: from a fullscreen state focused on index 0 with a
configured camera, two rapid `start_ptz_move` calls spawn exactly one move
loop; the loop clears the busy flag even when the collaborator fails. -/
theorem C8_ptz_serialization_witness :
    (start_ptz_move (fun _ => "ip") (fun _ => "u") PtzDir.left
        (start_ptz_move (fun _ => "ip") (fun _ => "u") PtzDir.left
          ⟨true, some 0, false, false, fun _ => 0, 0, []⟩)
      = start_ptz_move (fun _ => "ip") (fun _ => "u") PtzDir.left
          ⟨true, some 0, false, false, fun _ => 0, 0, []⟩
    ∧ (start_ptz_move (fun _ => "ip") (fun _ => "u") PtzDir.left
        ⟨true, some 0, false, false, fun _ => 0, 0, []⟩).in_flight = 0 + 1)
    ∧ (ptz_move_loop true PtzDir.left
        ⟨true, some 0, false, false, fun _ => 0, 0, []⟩).ptz_busy = false := by
  constructor
  · exact (C8_ptz_serialization (fun _ => "ip") (fun _ => "u") PtzDir.left
      PtzDir.left ⟨true, some 0, false, false, fun _ => 0, 0, []⟩).2.2.2.1
      0 rfl rfl (by decide) (by decide) rfl
  · exact (C8_ptz_serialization (fun _ => "ip") (fun _ => "u") PtzDir.left
      PtzDir.left ⟨true, some 0, false, false, fun _ => 0, 0, []⟩).2.2.2.2 true

/-- C10: `stop_ptz_move` in fullscreen with a focus index clears the moving
flag and the busy flag unconditionally (independently of `ptz_moving`,
`ptz_busy` and of any still-running move loop, whose in-flight count it
does not touch), and dispatches one plain stop command when an IP is
configured and the collaborator resolves (none when the IP is empty); when
not fullscreen or without a focus index it changes nothing. -/
theorem C10_stop_move (ips : Fin 4 → String) (resolve_fails : Bool)
    (s : PtzState) :
    (s.is_fullscreen = false → stop_ptz_move ips resolve_fails s = s)
    ∧ (s.fullscreen_index = none → stop_ptz_move ips resolve_fails s = s)
    ∧ (∀ k, s.is_fullscreen = true → s.fullscreen_index = some k →
        (stop_ptz_move ips resolve_fails s).ptz_moving = false
        ∧ (stop_ptz_move ips resolve_fails s).ptz_busy = false
        ∧ (ips k ≠ "" → resolve_fails = false →
            (stop_ptz_move ips resolve_fails s).sent = s.sent ++ [PtzCmd.stop])
        ∧ (ips k = "" → (stop_ptz_move ips resolve_fails s).sent = s.sent)
        ∧ (stop_ptz_move ips resolve_fails s).in_flight = s.in_flight) := by
  refine ⟨?_, ?_, ?_⟩
  · intro h
    unfold stop_ptz_move
    rw [if_pos h]
  · intro h
    unfold stop_ptz_move
    by_cases hf : s.is_fullscreen = false
    · rw [if_pos hf]
    · rw [if_neg hf, h]
  · intro k hf hidx
    unfold stop_ptz_move
    rw [if_neg (by simp [hf]), hidx]
    by_cases hip : ips k = ""
    · simp [hip, send_ptz_command]
    · by_cases hfl : resolve_fails = true
      · simp [hip, hfl, send_ptz_command]
      · rw [Bool.not_eq_true] at hfl
        simp [hip, hfl, send_ptz_command]

/-- C10 witness: a stop press in fullscreen on index 0 with a configured
IP and a live collaborator clears both flags and sends one stop command,
leaving the in-flight count of a running move loop alone. -/
theorem C10_stop_move_witness :
    (stop_ptz_move (fun _ => "ip") false
        ⟨true, some 0, true, true, fun _ => 0, 1, []⟩).ptz_moving = false
    ∧ (stop_ptz_move (fun _ => "ip") false
        ⟨true, some 0, true, true, fun _ => 0, 1, []⟩).ptz_busy = false
    ∧ (stop_ptz_move (fun _ => "ip") false
        ⟨true, some 0, true, true, fun _ => 0, 1, []⟩).sent
        = ([] : List PtzCmd) ++ [PtzCmd.stop]
    ∧ (stop_ptz_move (fun _ => "ip") false
        ⟨true, some 0, true, true, fun _ => 0, 1, []⟩).in_flight = 1 := by
  have h := (C10_stop_move (fun _ => "ip") false
      ⟨true, some 0, true, true, fun _ => 0, 1, []⟩).2.2 0 rfl rfl
  exact ⟨h.1, h.2.1, h.2.2.1 (by decide) rfl, h.2.2.2.2⟩

end Tapo